import Mathlib

/-!
Verification of the GPS NTP server (`ntpServer.py`).

The Python source is shallowly embedded: strings are Lean `String`s
(Python `ord` = `Char.toNat` on the code point), byte buffers are
`List Nat`, IEEE-754 doubles are modelled as exact rationals `ℚ`
(every concrete value appearing in the verified properties is exactly
representable, and both compared sides perform the same operations),
and code that can raise a Python exception returns `Except String α`
with the exception name as the error payload.  NumPy fixed-width casts
are modelled by explicit wrapping (`toInt8`, `toInt32`, `% 2^64`).
Scope note: `int(s)` / `int(s, 16)` are modelled for ASCII input
(Python additionally accepts non-ASCII unicode digits and whitespace,
which never occur in NMEA sentences).
-/

set_option autoImplicit false

instance {ε α : Type} [DecidableEq ε] [DecidableEq α] : DecidableEq (Except ε α) := fun a b =>
  match a, b with
  | .ok x, .ok y => if h : x = y then isTrue (by rw [h]) else isFalse (by simp [h])
  | .error x, .error y => if h : x = y then isTrue (by rw [h]) else isFalse (by simp [h])
  | .ok _, .error _ => isFalse (by simp)
  | .error _, .ok _ => isFalse (by simp)

/-- `np.int8` wrap of an integer (two's complement into `[-128, 127]`). -/
def toInt8 (v : Int) : Int := (v + 128) % 256 - 128

/-- `np.int32` wrap of an integer (two's complement into `[-2^31, 2^31)`). -/
def toInt32 (v : Int) : Int := (v + 2147483648) % 4294967296 - 2147483648

/-- Python `int(x)` truncation of a real toward zero. -/
def pyTrunc (x : ℚ) : Int := if 0 ≤ x then ⌊x⌋ else -⌊-x⌋

/-- Python whitespace stripped by `int(...)` (ASCII subset). -/
def isPyWs (c : Char) : Bool := c = ' ' ∨ c = '\t' ∨ c = '\n' ∨ c = '\r' ∨ c.toNat = 11 ∨ c.toNat = 12

/-- `str.strip()` on a character list. -/
def stripPyWs (cs : List Char) : List Char :=
  ((cs.dropWhile isPyWs).reverse.dropWhile isPyWs).reverse

/-- value of a decimal digit, as accepted by Python `int(s)`. -/
def decDigitVal (c : Char) : Option Nat :=
  if '0' ≤ c ∧ c ≤ '9' then some (c.toNat - 48) else none

/-- value of a hexadecimal digit, as accepted by Python `int(s, 16)`. -/
def hexDigitVal (c : Char) : Option Nat :=
  if '0' ≤ c ∧ c ≤ '9' then some (c.toNat - 48)
  else if 'a' ≤ c ∧ c ≤ 'f' then some (c.toNat - 87)
  else if 'A' ≤ c ∧ c ≤ 'F' then some (c.toNat - 55)
  else none

/-- digit tail of a Python integer literal: single underscores allowed between digits. -/
def parseU (dv : Char → Option Nat) (base : Nat) : List Char → Nat → Option Nat
  | [], acc => some acc
  | ['_'], _ => none
  | '_' :: c :: r, acc =>
      match dv c with
      | some v => parseU dv base r (acc * base + v)
      | none => none
  | c :: r, acc =>
      match dv c with
      | some v => parseU dv base r (acc * base + v)
      | none => none

/-- Core of Python `int(s)` / `int(s, 16)`: strip whitespace, optional sign,
optional `0x` prefixed form when `allow0x` (base 16), then digits with
underscores.  Returns `none` where Python raises `ValueError`. -/
def pyIntParse (dv : Char → Option Nat) (base : Nat) (allow0x : Bool) (s : String) : Option Int :=
  let cs := stripPyWs s.data
  let (sign, cs1) : Int × List Char :=
    match cs with
    | '+' :: r => (1, r)
    | '-' :: r => (-1, r)
    | r => (1, r)
  let cs2 :=
    if allow0x then
      match cs1 with
      | '0' :: c :: r =>
          if c = 'x' ∨ c = 'X' then
            match r with
            | '_' :: r2 => r2
            | _ => r
          else '0' :: c :: r
      | r => r
    else cs1
  match cs2 with
  | [] => none
  | c :: r =>
      match dv c with
      | some v =>
          match parseU dv base r v with
          | some n => some (sign * n)
          | none => none
      | none => none

/-- Python `int(s)` (decimal). -/
def pyIntDec (s : String) : Except String Int :=
  match pyIntParse decDigitVal 10 false s with
  | some v => .ok v
  | none => .error ("ValueError")

/-- Python `int(s, 16)`. -/
def pyIntHex (s : String) : Except String Int :=
  match pyIntParse hexDigitVal 16 true s with
  | some v => .ok v
  | none => .error ("ValueError")

/-- Python `s.split(sep)` for a single-character separator. -/
def pySplit (sep : Char) : List Char → List (List Char)
  | [] => [[]]
  | c :: r =>
      let rest := pySplit sep r
      if c = sep then [] :: rest
      else
        match rest with
        | h :: t => (c :: h) :: t
        | [] => [[c]]

/-- Python `l[i]` for a non-negative index: `IndexError` when out of range. -/
def pyGet {α : Type} (l : List α) (i : Nat) : Except String α :=
  match l.get? i with
  | some x => .ok x
  | none => .error ("IndexError")

/-- Python `s[a:b]` for non-negative `a ≤ b` (clamping at the end of the string). -/
def pySlice (cs : List Char) (a b : Nat) : List Char := (cs.drop a).take (b - a)

/-- The `NmeaGpsMessages` enum of the source (GPRMC / GPZDA). -/
inductive NmeaGpsMessages : Type where
  | GPRMC
  | GPZDA
  deriving DecidableEq, Repr

/-- `SECONDS_IN_MINUTE = 60.0` -/
def SECONDS_IN_MINUTE : ℚ := 60

/-- `SECONDS_IN_HOUR = 60.0 * SECONDS_IN_MINUTE` -/
def SECONDS_IN_HOUR : ℚ := 60 * SECONDS_IN_MINUTE

/-- `SECONDS_IN_HUNDRETH = 0.01` (exact value of the decimal literal) -/
def SECONDS_IN_HUNDRETH : ℚ := 1 / 100

/-- `SECONDS_IN_DAY = 24.0 * SECONDS_IN_HOUR` -/
def SECONDS_IN_DAY : ℚ := 24 * SECONDS_IN_HOUR

/-- `SECONDS_IN_MONTH` list of the source (non-leap month lengths in seconds). -/
def SECONDS_IN_MONTH : List ℚ :=
  [31 * SECONDS_IN_DAY, 28 * SECONDS_IN_DAY, 31 * SECONDS_IN_DAY,
   30 * SECONDS_IN_DAY, 31 * SECONDS_IN_DAY, 30 * SECONDS_IN_DAY,
   31 * SECONDS_IN_DAY, 31 * SECONDS_IN_DAY, 30 * SECONDS_IN_DAY,
   31 * SECONDS_IN_DAY, 30 * SECONDS_IN_DAY, 31 * SECONDS_IN_DAY]

/-- `SECONDS_IN_YEAR = 365 * SECONDS_IN_DAY` -/
def SECONDS_IN_YEAR : ℚ := 365 * SECONDS_IN_DAY

/-- `secondsFromMonths`: sum of `SECONDS_IN_MONTH[i]` for `i in range(0, month-1)`.
Raises `IndexError` exactly when the loop reaches index 12, i.e. when
`month - 1 > 12`; for `month ≤ 0` the loop body never runs. -/
def secondsFromMonths (month : Int) : Except String ℚ :=
  if month - 1 > 12 then .error ("IndexError")
  else .ok ((SECONDS_IN_MONTH.take (month - 1).toNat).sum)

/-- `leapYearsSince1970`: `np.int32((year + 2) / 4)` (true division, then cast
truncating toward zero and wrapping), minus 1 (in `np.int32`) when `month < 3`. -/
def leapYearsSince1970 (year month : Int) : Int :=
  let numLeapYears := toInt32 (pyTrunc ((year + 2 : ℚ) / 4))
  if month < 3 then toInt32 (numLeapYears - 1) else numLeapYears

/-- `nmeaChecksum`: split on `'*'`; anything but exactly two parts returns
`False`; otherwise XOR the payload (first part with its leading character
dropped) and compare with `int(checksum, 16)`, which raises `ValueError`
on unparseable hex. -/
def nmeaChecksum (nmeaSentence : String) : Except String Bool :=
  match pySplit '*' nmeaSentence.data with
  | [d, c] =>
      let data := d.drop 1
      let calcChecksum := data.foldl (fun (a : Nat) ch => a ^^^ ch.toNat) 0
      match pyIntHex (String.mk c) with
      | .ok v => .ok (decide ((calcChecksum : Int) = v))
      | .error e => .error e
  | _ => .ok false

/-- shared tail of `utcFromGps` (the `if valid == True:` block): parse the
time-of-day field and assemble the timestamp. -/
def buildTimestamp (nmeaFields : List (List Char)) (utcDay utcMonth utcYear : Int) :
    Except String ℚ :=
  match pyGet nmeaFields 1 with
  | .error e => .error e
  | .ok utcTime =>
    match pyIntDec (String.mk (pySlice utcTime 0 2)) with
    | .error e => .error e
    | .ok utcHour =>
      match pyIntDec (String.mk (pySlice utcTime 2 4)) with
      | .error e => .error e
      | .ok utcMinute =>
        match pyIntDec (String.mk (pySlice utcTime 4 6)) with
        | .error e => .error e
        | .ok utcSeconds =>
          match pyIntDec (String.mk (pySlice utcTime 7 9)) with
          | .error e => .error e
          | .ok utcHundreth =>
            match secondsFromMonths utcMonth with
            | .error e => .error e
            | .ok monthSeconds =>
              .ok ((utcHour * SECONDS_IN_HOUR) + (utcMinute * SECONDS_IN_MINUTE) + utcSeconds
                   + utcHundreth * SECONDS_IN_HUNDRETH
                   + utcDay * SECONDS_IN_DAY
                   + monthSeconds
                   + utcYear * SECONDS_IN_YEAR
                   + (leapYearsSince1970 utcYear utcMonth) * SECONDS_IN_DAY)

/-- `utcFromGps`: checksum-check the sentence, split on commas, extract the
date per sentence type (GPRMC field 9 `ddmmyy`, year `+ 30`; GPZDA fields
2/3/4, year `- 1970`), then build the timestamp.  Returns `0` when the
checksum is wrong; propagates the Python exceptions of the field parsing. -/
def utcFromGps (nmeaSentence : String) (nmeaSentenceName : NmeaGpsMessages) :
    Except String ℚ :=
  match nmeaChecksum nmeaSentence with
  | .error e => .error e
  | .ok false => .ok 0
  | .ok true =>
    let nmeaFields := pySplit ',' nmeaSentence.data
    match nmeaSentenceName with
    | .GPRMC =>
      match pyGet nmeaFields 9 with
      | .error e => .error e
      | .ok utcDate =>
        match pyIntDec (String.mk (pySlice utcDate 0 2)) with
        | .error e => .error e
        | .ok utcDay =>
          match pyIntDec (String.mk (pySlice utcDate 2 4)) with
          | .error e => .error e
          | .ok utcMonth =>
            match pyIntDec (String.mk (pySlice utcDate 4 6)) with
            | .error e => .error e
            | .ok y => buildTimestamp nmeaFields utcDay utcMonth (y + 30)
    | .GPZDA =>
      match pyGet nmeaFields 2 with
      | .error e => .error e
      | .ok dayField =>
        match pyIntDec (String.mk dayField) with
        | .error e => .error e
        | .ok utcDay =>
          match pyGet nmeaFields 3 with
          | .error e => .error e
          | .ok monthField =>
            match pyIntDec (String.mk monthField) with
            | .error e => .error e
            | .ok utcMonth =>
              match pyGet nmeaFields 4 with
              | .error e => .error e
              | .ok yearField =>
                match pyIntDec (String.mk yearField) with
                | .error e => .error e
                | .ok y => buildTimestamp nmeaFields utcDay utcMonth (y - 1970)

/-- Month lengths in days, as the spec's formula states them. -/
def MONTH_DAYS : List ℚ := [31, 28, 31, 30, 31, 30, 31, 31, 30, 31, 30, 31]

/-- `leap_days(y, m) = floor((y + 2) / 4) - (1 if m < 3 else 0)`, as the
spec's formula states it. -/
def specLeapDays (y m : Int) : Int :=
  ⌊((y : ℚ) + 2) / 4⌋ - (if m < 3 then 1 else 0)

/-- The spec's literal composition formula for seconds-since-1970. -/
def specTimestamp (hour minute second hundredth day month ys1970 : Int) : ℚ :=
  hour * 3600 + minute * 60 + second + hundredth * (1 / 100)
  + day * 86400
  + ((MONTH_DAYS.take (month - 1).toNat).sum) * 86400
  + ys1970 * 365 * 86400
  + (specLeapDays ys1970 month) * 86400

/-- `CurrentTime`: the shared time-reference cell (`__gpsTime`, `__perfTime`,
`__rootDelay`), all initialised to 0. -/
structure CurrentTime where
  gpsTime : ℚ
  perfTime : ℚ
  rootDelay : ℚ
  deriving DecidableEq, Repr

/-- `CurrentTime.__init__`: all three fields zero. -/
def CurrentTime.initState : CurrentTime := ⟨0, 0, 0⟩

/-- `CurrentTime.setTime`: if `newTime != 0`, store (under the mutex, modelled
as one atomic state transition) `rootDelay := perf_counter() - rxTime + SERIAL_DELAY`
(first clock read `now1`), `gpsTime := newTime`, `perfTime := perf_counter()`
(second clock read `now2`); otherwise leave the state unchanged. -/
def CurrentTime.setTime (s : CurrentTime) (newTime rxTime now1 now2 serialDelay : ℚ) :
    CurrentTime :=
  if newTime ≠ 0 then
    { gpsTime := newTime, perfTime := now2, rootDelay := now1 - rxTime + serialDelay }
  else s

/-- `CurrentTime.getTime` at monotonic instant `now`:
`(gpsTime + now - perfTime + rootDelay, gpsTime, rootDelay)`. -/
def CurrentTime.getTime (s : CurrentTime) (now : ℚ) : ℚ × ℚ × ℚ :=
  (s.gpsTime + now - s.perfTime + s.rootDelay, s.gpsTime, s.rootDelay)

/-- The `Mode` enum of the source. -/
inductive Mode : Type where
  | UNSPECIFIED
  | SYMMETRIC_ACTIVE
  | SYMMETRIC_PASSIVE
  | CLIENT
  | SERVER
  | BROADCAST
  | RESERVED_CONTROL
  | RESERVED_PRIVATE
  deriving DecidableEq, Repr

/-- numeric value of a `Mode`. -/
def Mode.value : Mode → Nat
  | .UNSPECIFIED => 0
  | .SYMMETRIC_ACTIVE => 1
  | .SYMMETRIC_PASSIVE => 2
  | .CLIENT => 3
  | .SERVER => 4
  | .BROADCAST => 5
  | .RESERVED_CONTROL => 6
  | .RESERVED_PRIVATE => 7

/-- `Mode(n)` for `n = b0 & 0x7` (always in range). -/
def Mode.fromValue (n : Nat) : Mode :=
  match n % 8 with
  | 0 => .UNSPECIFIED
  | 1 => .SYMMETRIC_ACTIVE
  | 2 => .SYMMETRIC_PASSIVE
  | 3 => .CLIENT
  | 4 => .SERVER
  | 5 => .BROADCAST
  | 6 => .RESERVED_CONTROL
  | _ => .RESERVED_PRIVATE

/-- The `LeapIndicator` enum of the source. -/
inductive LeapIndicator : Type where
  | NO_WARNING
  | LAST_MINUTE_61
  | LAST_MINUTE_59
  | ALARM
  deriving DecidableEq, Repr

/-- numeric value of a `LeapIndicator`. -/
def LeapIndicator.value : LeapIndicator → Nat
  | .NO_WARNING => 0
  | .LAST_MINUTE_61 => 1
  | .LAST_MINUTE_59 => 2
  | .ALARM => 3

/-- `LeapIndicator(n)` for `n = (b0 >> 6) & 0x3` (always in range). -/
def LeapIndicator.fromValue (n : Nat) : LeapIndicator :=
  match n % 4 with
  | 0 => .NO_WARNING
  | 1 => .LAST_MINUTE_61
  | 2 => .LAST_MINUTE_59
  | _ => .ALARM

/-- `_UTC_TO_NTP = np.uint64(2208988800 << 32)`. -/
def UTC_TO_NTP : Int := 2208988800 * 4294967296

/-- `NTP_MAX_VERSION = 4`. -/
def NTP_MAX_VERSION : Int := 4

/-- The fields of an `NtpPacket` instance.  `np.int8` fields are wrapped
integers, `np.int32` fields wrapped integers, `np.uint64` timestamps are
naturals; `refId` is the `np.uint32`/`np.int32` reference id. -/
structure NtpPacket where
  leap : LeapIndicator
  version : Int
  mode : Mode
  stratum : Int
  poll : Int
  precision : Int
  rootDelay : Int
  rootDispersion : Int
  refId : Int
  refTimestamp : Nat
  originTimestamp : Nat
  rxTimestamp : Nat
  txTimestamp : Nat
  deriving DecidableEq, Repr

/-- `_stringToInt`: pack a 3- or 4-character reference id string MSB-first
into `np.uint32` (other lengths give 0). -/
def stringToInt (refString : String) : Int :=
  match refString.data with
  | [c0, c1, c2, c3] =>
      ((c0.toNat * 16777216 + c1.toNat * 65536 + c2.toNat * 256 + c3.toNat : Int)) % 4294967296
  | [c0, c1, c2] =>
      ((c0.toNat * 16777216 + c1.toNat * 65536 + c2.toNat * 256 : Int)) % 4294967296
  | _ => 0

/-- `NtpPacket.__init__(version, mode, refId)`: validates `0 < version <= 4`
(the `mode`/`refId` type checks always pass for our typed arguments) and
initialises the fields. -/
def NtpPacket.init (version : Int) (mode : Mode) (refId : String) :
    Except String NtpPacket :=
  if version > 0 ∧ version ≤ NTP_MAX_VERSION then
    .ok { leap := .NO_WARNING, version := toInt8 version, mode := mode,
          stratum := 1, poll := 0, precision := 0,
          rootDelay := 0, rootDispersion := 0, refId := stringToInt refId,
          refTimestamp := 0, originTimestamp := 0, rxTimestamp := 0, txTimestamp := 0 }
  else .error ("Invalid NTP Version")

/-- byte `i` of a buffer (buffers handed to `struct.unpack` have their
length checked first, so the default is never observed). -/
def byteAt (buf : List Nat) (i : Nat) : Nat := buf.getD i 0

/-- big-endian 32-bit word at offset `i` (as `struct.unpack "!...I"` reads it:
`b0*2^24 + b1*2^16 + b2*2^8 + b3`). -/
def wordAt (buf : List Nat) (i : Nat) : Nat :=
  byteAt buf i * 16777216 + byteAt buf (i + 1) * 65536 + byteAt buf (i + 2) * 256
    + byteAt buf (i + 3)

/-- `NtpPacket.fromBuffer`: `struct.unpack("!B B B b 11I", buffer[0:48])`
raises (→ `NtpException("Invalid NTP fields")`) iff fewer than 48 bytes are
available; otherwise all fields are taken from the first 48 bytes, with no
validation of version or any other field.  `(hi << 32) | lo` of two 32-bit
words is their exact 64-bit big-endian value. -/
def fromBuffer (buffer : List Nat) : Except String NtpPacket :=
  if buffer.length < 48 then .error ("Invalid NTP fields")
  else
    let b := buffer.take 48
    .ok { leap := LeapIndicator.fromValue ((byteAt b 0) / 64 % 4),    -- (b0 >> 6) & 0x3
          version := toInt8 ((byteAt b 0) / 8 % 8),               -- np.int8((b0 >> 3) & 0x7)
          mode := Mode.fromValue ((byteAt b 0) % 8),                  -- Mode(b0 & 0x7)
          stratum := toInt8 (byteAt b 1),
          poll := toInt8 (byteAt b 2),
          precision := toInt8 (byteAt b 3),                       -- the "b" (signed) field
          rootDelay := toInt32 (wordAt b 4),
          rootDispersion := toInt32 (wordAt b 8),
          refId := toInt32 (wordAt b 12),
          refTimestamp := wordAt b 16 * 4294967296 + wordAt b 20,
          originTimestamp := wordAt b 24 * 4294967296 + wordAt b 28,
          rxTimestamp := wordAt b 32 * 4294967296 + wordAt b 36,
          txTimestamp := wordAt b 40 * 4294967296 + wordAt b 44 }

/-- `_floatToFixed(floatNum, fracBits)`: `math.floor` for the integer part,
`int(abs(floatNum - int(floatNum)) * 2**fracBits)` for the fractional part
(that argument is non-negative, so the truncation is a floor), combined with
`intPart << fracBits | fracPart`; the low `fracBits` bits of the shifted
integer part are zero, so the bitwise or is addition. -/
def floatToFixed (floatNum : ℚ) (fracBits : Nat) : Int :=
  let intPart : Int := ⌊floatNum⌋
  let fracPart : Int := ⌊(abs (floatNum - (pyTrunc floatNum : ℚ))) * 2 ^ fracBits⌋
  intPart * 2 ^ fracBits + fracPart

/-- `_validateFloat` on a Python float (the `np.uint64` pass-through branch is
modelled at the call site): convert to 32.32 fixed point and add the NTP
epoch offset. -/
def validateFloat (x : ℚ) : Int := floatToFixed x 32 + UTC_TO_NTP

/-- big-endian byte split of an in-range 32-bit value (what
`struct.pack "!I"` emits). -/
def be32 (v : Int) : List Nat :=
  [(v / 16777216 % 256).toNat, (v / 65536 % 256).toNat, (v / 256 % 256).toNat, (v % 256).toNat]

/-- `(v & 0xFFFFFFFF00000000) >> 32` on a Python int (two's complement bits
32..63). -/
def hi32 (v : Int) : Int := (v % 18446744073709551616) / 4294967296

/-- `v & 0xFFFFFFFF` on a Python int. -/
def lo32 (v : Int) : Int := v % 4294967296

/-- `NtpPacket.getBuffer(txTimestamp)`: set the transmit timestamp
(`np.int64(_floatToFixed(tx, 32)) + _UTC_TO_NTP`; NumPy routes this sum
through `float64` — modelled exactly, no reply property inspects these
bytes) and `struct.pack("!B B B b 11I", ...)` all fields big-endian.
`struct.pack` validates every argument against its format range and raises
`struct.error` (→ `NtpException`) without emitting anything if one is out
of range, so it is modelled as one atomic range check; the split timestamp
words are masked by `hi32`/`lo32` into `[0, 2^32)`, so their `"I"` range
checks always pass and are not repeated here.  The `"b"` (signed char)
`precision` field is emitted as its two's-complement byte. -/
def getBuffer (p : NtpPacket) (txTimestamp : ℚ) : Except String (List Nat) :=
  let txTs : Int := floatToFixed txTimestamp 32 + UTC_TO_NTP
  let b0 : Int := (p.leap.value : Int) * 64 + p.version * 8 + p.mode.value  -- leap<<6|ver<<3|mode
  if (0 ≤ b0 ∧ b0 < 256) ∧ (0 ≤ p.stratum ∧ p.stratum < 256)
      ∧ (0 ≤ p.poll ∧ p.poll < 256) ∧ (-128 ≤ p.precision ∧ p.precision < 128)
      ∧ (0 ≤ p.rootDelay ∧ p.rootDelay < 4294967296)
      ∧ (0 ≤ p.rootDispersion ∧ p.rootDispersion < 4294967296)
      ∧ (0 ≤ p.refId ∧ p.refId < 4294967296) then
    .ok ([b0.toNat, p.stratum.toNat, p.poll.toNat, (p.precision % 256).toNat]
         ++ be32 p.rootDelay ++ be32 p.rootDispersion ++ be32 p.refId
         ++ be32 (hi32 p.refTimestamp) ++ be32 (lo32 p.refTimestamp)
         ++ be32 (hi32 p.originTimestamp) ++ be32 (lo32 p.originTimestamp)
         ++ be32 (hi32 p.rxTimestamp) ++ be32 (lo32 p.rxTimestamp)
         ++ be32 (hi32 txTs) ++ be32 (lo32 txTs))
  else .error ("Invalid NTP Fields")

/-- The reply packet as `TxThread.run` builds it: `NtpPacket(3, SERVER, "GPS")`,
then `setPoll(NTP_POLL)` (`np.int8`), `setPrecision(CLK_PRECISION)`
(`np.int8(round(log2(2^-16))) = -16`), `setRootValues(rootDelay, SERIAL_ERROR)`
(`np.int32(_floatToFixed(x, 16))`), and `setTimestamps(refTime,
rxPacket.getTxTimestamp(), rxTime)` — the origin timestamp is the request's
transmit timestamp, passed through `_validateFloat` unchanged because its
type is `np.uint64`; the two float timestamps go through `_validateFloat`
then `np.uint64` (wrap). -/
def txBuildPacket (envPoll : Int) (rootDelay serialError refTime : ℚ) (originTs : Nat)
    (rxTime : ℚ) : Except String NtpPacket :=
  match NtpPacket.init 3 Mode.SERVER ("GPS") with
  | .error e => .error e
  | .ok p =>
      .ok { p with
            poll := toInt8 envPoll,
            precision := -16,
            rootDelay := toInt32 (floatToFixed rootDelay 16),
            rootDispersion := toInt32 (floatToFixed serialError 16),
            refTimestamp := ((validateFloat refTime) % 18446744073709551616).toNat,
            originTimestamp := originTs,
            rxTimestamp := ((validateFloat rxTime) % 18446744073709551616).toNat }

/-- One `TxThread.run` loop body after dequeuing `(data, address, rxTime)`,
with the monotonic clock at `nowPerf` when `utcTime.getTime()` runs:
parse the request (`NtpException` → log, no reply), answer only
`CLIENT`/`SYMMETRIC_ACTIVE` requests, build the reply and pack it
(`NtpException` → log, no reply).  `some buffer` is the datagram sent back. -/
def txRespond (data : List Nat) (rxTime : ℚ) (st : CurrentTime) (nowPerf : ℚ)
    (envPoll : Int) (serialError : ℚ) : Option (List Nat) :=
  match fromBuffer data with
  | .error _ => none
  | .ok rxPacket =>
    if rxPacket.mode = Mode.CLIENT ∨ rxPacket.mode = Mode.SYMMETRIC_ACTIVE then
      let r := st.getTime nowPerf
      match txBuildPacket envPoll r.2.2 serialError r.2.1 rxPacket.txTimestamp rxTime with
      | .error _ => none
      | .ok txPacket =>
        match getBuffer txPacket r.1 with
        | .error _ => none
        | .ok buf => some buf
    else none


/-- The GPZDA sentence of the spec's scenario, with its correct checksum
(`XOR` of the payload is `0x68`). -/
def gpzdaSentence : String := "$GPZDA,123519.50,15,06,2024,00,00*68"

/-- A GPRMC sentence on the same date (checksum `0x4F`). -/
def gprmcSentence : String :=
  "$GPRMC,123519.00,A,4807.038,N,01131.000,E,022.4,084.4,150624,003.1,W*4F"

/-- A 48-byte request with `LI = 0`, `VN = 3`, `Mode = 3` (CLIENT) and the
spec scenario's transmit timestamp `0xDEADBEEFCAFEBABE` in bytes 40..47. -/
def cReqVN3 : List Nat := 27 :: (List.replicate 39 0 ++ [222, 173, 190, 239, 202, 254, 186, 190])

/-- A 48-byte request whose first byte is `0b00_000_011`: `VN = 0`, `Mode = 3`. -/
def cReqVN0 : List Nat := 3 :: List.replicate 47 0

/-- A 48-byte request whose first byte is `0b00_101_011`: `VN = 5`, `Mode = 3`. -/
def cReqVN5 : List Nat := 43 :: List.replicate 47 0


theorem leapYears_eq_spec (y m : Int) (h0 : 0 ≤ y) (h1 : y ≤ 8030) :
    leapYearsSince1970 y m = specLeapDays y m := by
  have hq : (0 : ℚ) ≤ ((y : ℚ) + 2) / 4 := by positivity
  have hfl0 : (0 : Int) ≤ ⌊((y : ℚ) + 2) / 4⌋ := Int.floor_nonneg.mpr hq
  have hfl1 : ⌊((y : ℚ) + 2) / 4⌋ < 2009 := by
    have h1q : (y : ℚ) ≤ 8030 := by exact_mod_cast h1
    have hlt : ((y : ℚ) + 2) / 4 < ((2009 : ℤ) : ℚ) := by push_cast; linarith
    exact Int.floor_lt.mpr hlt
  unfold leapYearsSince1970 specLeapDays pyTrunc toInt32
  rw [if_pos hq]
  by_cases hm : m < 3 <;> simp only [hm, if_true, if_false] <;> omega

theorem monthSum_take (k : Nat) (hk : k ≤ 12) :
    (SECONDS_IN_MONTH.take k).sum = ((MONTH_DAYS.take k).sum) * 86400 := by
  interval_cases k <;>
    norm_num [SECONDS_IN_MONTH, MONTH_DAYS, SECONDS_IN_DAY, SECONDS_IN_HOUR, SECONDS_IN_MINUTE]

theorem monthSum_eq (mo : Int) (h2 : mo ≤ 12) :
    (SECONDS_IN_MONTH.take (mo - 1).toNat).sum = ((MONTH_DAYS.take (mo - 1).toNat).sum) * 86400 :=
  monthSum_take (mo - 1).toNat (by omega)

theorem utcFromGps_gpzda_eq (s : String) (df mf yf tf : List Char)
    (dd mo yy hh mi ss hu : Int)
    (hck : nmeaChecksum s = .ok true)
    (hdf : pyGet (pySplit ',' s.data) 2 = .ok df)
    (hdd : pyIntDec (String.mk df) = .ok dd)
    (hmf : pyGet (pySplit ',' s.data) 3 = .ok mf)
    (hmo : pyIntDec (String.mk mf) = .ok mo)
    (hyf : pyGet (pySplit ',' s.data) 4 = .ok yf)
    (hyy : pyIntDec (String.mk yf) = .ok yy)
    (htf : pyGet (pySplit ',' s.data) 1 = .ok tf)
    (hhh : pyIntDec (String.mk (pySlice tf 0 2)) = .ok hh)
    (hmi : pyIntDec (String.mk (pySlice tf 2 4)) = .ok mi)
    (hss : pyIntDec (String.mk (pySlice tf 4 6)) = .ok ss)
    (hhu : pyIntDec (String.mk (pySlice tf 7 9)) = .ok hu)
    (hm1 : 1 ≤ mo) (hm2 : mo ≤ 12) (hy1 : 1970 ≤ yy) (hy2 : yy ≤ 9999) :
    utcFromGps s .GPZDA = .ok (specTimestamp hh mi ss hu dd mo (yy - 1970)) := by
  unfold utcFromGps
  simp only [hck, hdf, hdd, hmf, hmo, hyf, hyy]
  unfold buildTimestamp
  simp only [htf, hhh, hmi, hss, hhu]
  rw [secondsFromMonths, if_neg (by omega)]
  rw [monthSum_eq mo hm2, leapYears_eq_spec (yy - 1970) mo (by omega) (by omega)]
  unfold specTimestamp SECONDS_IN_YEAR SECONDS_IN_DAY SECONDS_IN_HUNDRETH SECONDS_IN_HOUR
    SECONDS_IN_MINUTE
  push_cast
  ring

theorem utcFromGps_gprmc_eq (s : String) (df tf : List Char)
    (dd mo yy hh mi ss hu : Int)
    (hck : nmeaChecksum s = .ok true)
    (hdf : pyGet (pySplit ',' s.data) 9 = .ok df)
    (hdd : pyIntDec (String.mk (pySlice df 0 2)) = .ok dd)
    (hmo : pyIntDec (String.mk (pySlice df 2 4)) = .ok mo)
    (hyy : pyIntDec (String.mk (pySlice df 4 6)) = .ok yy)
    (htf : pyGet (pySplit ',' s.data) 1 = .ok tf)
    (hhh : pyIntDec (String.mk (pySlice tf 0 2)) = .ok hh)
    (hmi : pyIntDec (String.mk (pySlice tf 2 4)) = .ok mi)
    (hss : pyIntDec (String.mk (pySlice tf 4 6)) = .ok ss)
    (hhu : pyIntDec (String.mk (pySlice tf 7 9)) = .ok hu)
    (hm1 : 1 ≤ mo) (hm2 : mo ≤ 12) (hy1 : 0 ≤ yy) (hy2 : yy ≤ 99) :
    utcFromGps s .GPRMC = .ok (specTimestamp hh mi ss hu dd mo (yy + 30)) := by
  unfold utcFromGps
  simp only [hck, hdf, hdd, hmo, hyy]
  unfold buildTimestamp
  simp only [htf, hhh, hmi, hss, hhu]
  rw [secondsFromMonths, if_neg (by omega)]
  rw [monthSum_eq mo hm2, leapYears_eq_spec (yy + 30) mo (by omega) (by omega)]
  unfold specTimestamp SECONDS_IN_YEAR SECONDS_IN_DAY SECONDS_IN_HUNDRETH SECONDS_IN_HOUR
    SECONDS_IN_MINUTE
  push_cast
  ring

theorem txBuildPacket_eq (envPoll : Int) (rootDelay serialError refTime : ℚ) (originTs : Nat)
    (rxTime : ℚ) :
    txBuildPacket envPoll rootDelay serialError refTime originTs rxTime = .ok
      { leap := .NO_WARNING, version := 3, mode := .SERVER, stratum := 1,
        poll := toInt8 envPoll, precision := -16,
        rootDelay := toInt32 (floatToFixed rootDelay 16),
        rootDispersion := toInt32 (floatToFixed serialError 16),
        refId := 1196446464,
        refTimestamp := ((validateFloat refTime) % 18446744073709551616).toNat,
        originTimestamp := originTs,
        rxTimestamp := ((validateFloat rxTime) % 18446744073709551616).toNat,
        txTimestamp := 0 } := by
  unfold txBuildPacket NtpPacket.init
  rw [if_pos (by norm_num [NTP_MAX_VERSION])]
  rw [show stringToInt ("GPS") = 1196446464 from rfl, show toInt8 3 = 3 from rfl]

theorem getBuffer_tx (pv rdv rdisv : Int) (refT orgT rxTsN : Nat) (tx : ℚ)
    (hpv : 0 ≤ pv ∧ pv < 256) (hrdv : 0 ≤ rdv ∧ rdv < 4294967296)
    (hrdisv : 0 ≤ rdisv ∧ rdisv < 4294967296) :
    getBuffer
      { leap := .NO_WARNING, version := 3, mode := .SERVER, stratum := 1,
        poll := pv, precision := -16, rootDelay := rdv, rootDispersion := rdisv,
        refId := 1196446464, refTimestamp := refT, originTimestamp := orgT,
        rxTimestamp := rxTsN, txTimestamp := 0 } tx
    = .ok ([28, 1, pv.toNat, 240] ++ be32 rdv ++ be32 rdisv ++ [71, 80, 83, 0]
        ++ be32 (hi32 refT) ++ be32 (lo32 refT)
        ++ be32 (hi32 orgT) ++ be32 (lo32 orgT)
        ++ be32 (hi32 rxTsN) ++ be32 (lo32 rxTsN)
        ++ be32 (hi32 (floatToFixed tx 32 + UTC_TO_NTP))
        ++ be32 (lo32 (floatToFixed tx 32 + UTC_TO_NTP))) := by
  unfold getBuffer
  rw [if_pos (by
    refine ⟨by norm_num [LeapIndicator.value, Mode.value], by norm_num, hpv, by norm_num,
      hrdv, hrdisv, by norm_num⟩)]
  norm_num [LeapIndicator.value, Mode.value]
  exact ⟨rfl, rfl, rfl⟩

theorem getBuffer_tx_none (pv rdv rdisv : Int) (refT orgT rxTsN : Nat) (tx : ℚ)
    (hbad : ¬ ((0 ≤ pv ∧ pv < 256) ∧ (0 ≤ rdv ∧ rdv < 4294967296)
        ∧ (0 ≤ rdisv ∧ rdisv < 4294967296))) :
    getBuffer
      { leap := .NO_WARNING, version := 3, mode := .SERVER, stratum := 1,
        poll := pv, precision := -16, rootDelay := rdv, rootDispersion := rdisv,
        refId := 1196446464, refTimestamp := refT, originTimestamp := orgT,
        rxTimestamp := rxTsN, txTimestamp := 0 } tx
    = .error ("Invalid NTP Fields") := by
  unfold getBuffer
  rw [if_neg (fun hbig => hbad ⟨hbig.2.2.1, hbig.2.2.2.2.1, hbig.2.2.2.2.2.1⟩)]

set_option maxRecDepth 8000 in
theorem txRespond_some (data : List Nat) (rxT : ℚ) (st : CurrentTime) (now : ℚ)
    (envPoll : Int) (serr : ℚ) (pkt : NtpPacket)
    (hfb : fromBuffer data = .ok pkt)
    (hmode : pkt.mode = Mode.CLIENT ∨ pkt.mode = Mode.SYMMETRIC_ACTIVE)
    (hpoll : 0 ≤ toInt8 envPoll ∧ toInt8 envPoll < 256)
    (hrd : 0 ≤ toInt32 (floatToFixed st.rootDelay 16)
        ∧ toInt32 (floatToFixed st.rootDelay 16) < 4294967296)
    (hrdis : 0 ≤ toInt32 (floatToFixed serr 16)
        ∧ toInt32 (floatToFixed serr 16) < 4294967296) :
    txRespond data rxT st now envPoll serr
    = some ([28, 1, (toInt8 envPoll).toNat, 240]
        ++ be32 (toInt32 (floatToFixed st.rootDelay 16))
        ++ be32 (toInt32 (floatToFixed serr 16)) ++ [71, 80, 83, 0]
        ++ be32 (hi32 ((validateFloat st.gpsTime % 18446744073709551616).toNat : Int))
        ++ be32 (lo32 ((validateFloat st.gpsTime % 18446744073709551616).toNat : Int))
        ++ be32 (hi32 (pkt.txTimestamp : Int)) ++ be32 (lo32 (pkt.txTimestamp : Int))
        ++ be32 (hi32 ((validateFloat rxT % 18446744073709551616).toNat : Int))
        ++ be32 (lo32 ((validateFloat rxT % 18446744073709551616).toNat : Int))
        ++ be32 (hi32 (floatToFixed (st.gpsTime + now - st.perfTime + st.rootDelay) 32 + UTC_TO_NTP))
        ++ be32 (lo32 (floatToFixed (st.gpsTime + now - st.perfTime + st.rootDelay) 32 + UTC_TO_NTP))) := by
  unfold txRespond
  simp only [hfb, if_pos hmode, CurrentTime.getTime, txBuildPacket_eq,
    getBuffer_tx _ _ _ _ _ _ _ hpoll hrd hrdis]

set_option maxRecDepth 8000 in
theorem txRespond_none_of_ranges (data : List Nat) (rxT : ℚ) (st : CurrentTime) (now : ℚ)
    (envPoll : Int) (serr : ℚ) (pkt : NtpPacket)
    (hfb : fromBuffer data = .ok pkt)
    (hmode : pkt.mode = Mode.CLIENT ∨ pkt.mode = Mode.SYMMETRIC_ACTIVE)
    (hbad : ¬ ((0 ≤ toInt8 envPoll ∧ toInt8 envPoll < 256)
        ∧ (0 ≤ toInt32 (floatToFixed st.rootDelay 16)
            ∧ toInt32 (floatToFixed st.rootDelay 16) < 4294967296)
        ∧ (0 ≤ toInt32 (floatToFixed serr 16)
            ∧ toInt32 (floatToFixed serr 16) < 4294967296))) :
    txRespond data rxT st now envPoll serr = none := by
  unfold txRespond
  simp only [hfb, if_pos hmode, CurrentTime.getTime, txBuildPacket_eq,
    getBuffer_tx_none _ _ _ _ _ _ _ hbad]

set_option maxRecDepth 8000 in
theorem txRespond_none_of_mode (data : List Nat) (rxT : ℚ) (st : CurrentTime) (now : ℚ)
    (envPoll : Int) (serr : ℚ) (pkt : NtpPacket)
    (hfb : fromBuffer data = .ok pkt)
    (hmode : ¬ (pkt.mode = Mode.CLIENT ∨ pkt.mode = Mode.SYMMETRIC_ACTIVE)) :
    txRespond data rxT st now envPoll serr = none := by
  unfold txRespond
  simp only [hfb, if_neg hmode]

set_option maxRecDepth 8000 in
theorem txRespond_none_of_parse (data : List Nat) (rxT : ℚ) (st : CurrentTime) (now : ℚ)
    (envPoll : Int) (serr : ℚ) (e : String)
    (hfb : fromBuffer data = .error e) :
    txRespond data rxT st now envPoll serr = none := by
  unfold txRespond
  simp only [hfb]

theorem be32_of_bytes (a b c d : Nat) (ha : a < 256) (hb : b < 256) (hc : c < 256)
    (hd : d < 256) :
    be32 ((a * 16777216 + b * 65536 + c * 256 + d : Nat) : Int) = [a, b, c, d] := by
  unfold be32
  push_cast
  simp only [List.cons.injEq, and_true]
  refine ⟨?_, ?_, ?_, ?_⟩ <;> omega

theorem hi32_of_pair (A B : Nat) (hA2 : A < 4294967296) (hB : B < 4294967296) :
    hi32 ((A * 4294967296 + B : Nat) : Int) = (A : Int) := by
  unfold hi32
  push_cast
  omega

theorem lo32_of_pair (A B : Nat) (hA : A < 4294967296) (hB : B < 4294967296) :
    lo32 ((A * 4294967296 + B : Nat) : Int) = (B : Int) := by
  unfold lo32
  push_cast
  omega

theorem fromBuffer_ok_of_length (buffer : List Nat) (hlen : 48 ≤ buffer.length) :
    fromBuffer buffer = .ok
      { leap := LeapIndicator.fromValue ((byteAt (buffer.take 48) 0) / 64 % 4),
        version := toInt8 ((byteAt (buffer.take 48) 0) / 8 % 8),
        mode := Mode.fromValue ((byteAt (buffer.take 48) 0) % 8),
        stratum := toInt8 (byteAt (buffer.take 48) 1),
        poll := toInt8 (byteAt (buffer.take 48) 2),
        precision := toInt8 (byteAt (buffer.take 48) 3),
        rootDelay := toInt32 (wordAt (buffer.take 48) 4),
        rootDispersion := toInt32 (wordAt (buffer.take 48) 8),
        refId := toInt32 (wordAt (buffer.take 48) 12),
        refTimestamp := wordAt (buffer.take 48) 16 * 4294967296 + wordAt (buffer.take 48) 20,
        originTimestamp := wordAt (buffer.take 48) 24 * 4294967296 + wordAt (buffer.take 48) 28,
        rxTimestamp := wordAt (buffer.take 48) 32 * 4294967296 + wordAt (buffer.take 48) 36,
        txTimestamp := wordAt (buffer.take 48) 40 * 4294967296 + wordAt (buffer.take 48) 44 } := by
  unfold fromBuffer
  rw [if_neg (by omega)]

theorem byteAt_tail (front tail : List Nat) (i : Nat) (hlen : front.length = 40)
    (hi : 40 ≤ i) :
    byteAt (front ++ tail) i = tail.getD (i - 40) 0 := by
  unfold byteAt
  rw [List.getD_append_right front tail 0 i (by omega), hlen]

theorem fromBuffer_tx_bytes (front : List Nat) (a b c d e f g h2 : Nat) (pkt : NtpPacket)
    (hlen : front.length = 40)
    (hfb : fromBuffer (front ++ [a, b, c, d, e, f, g, h2]) = .ok pkt) :
    pkt.txTimestamp
    = (a * 16777216 + b * 65536 + c * 256 + d) * 4294967296
      + (e * 16777216 + f * 65536 + g * 256 + h2) := by
  have hlen48 : (front ++ [a, b, c, d, e, f, g, h2]).length = 48 := by simp [hlen]
  rw [fromBuffer_ok_of_length _ (by omega)] at hfb
  have hpkt := (Except.ok.inj hfb).symm
  have htake : (front ++ [a, b, c, d, e, f, g, h2]).take 48 = front ++ [a, b, c, d, e, f, g, h2] :=
    List.take_of_length_le (by omega)
  rw [hpkt]
  simp only [htake, wordAt]
  rw [byteAt_tail _ _ 40 hlen (by omega), byteAt_tail _ _ 41 hlen (by omega),
    byteAt_tail _ _ 42 hlen (by omega), byteAt_tail _ _ 43 hlen (by omega),
    byteAt_tail _ _ 44 hlen (by omega), byteAt_tail _ _ 45 hlen (by omega),
    byteAt_tail _ _ 46 hlen (by omega), byteAt_tail _ _ 47 hlen (by omega)]
  rfl

theorem txRespond_reply_cases (data : List Nat) (rxT : ℚ) (st : CurrentTime) (now : ℚ)
    (envPoll : Int) (serr : ℚ) (reply : List Nat)
    (h : txRespond data rxT st now envPoll serr = some reply) :
    ∃ (pkt : NtpPacket) (pv rdv rdisv : Int),
      fromBuffer data = .ok pkt
      ∧ (pkt.mode = Mode.CLIENT ∨ pkt.mode = Mode.SYMMETRIC_ACTIVE)
      ∧ reply = [28, 1, pv.toNat, 240] ++ be32 rdv ++ be32 rdisv ++ [71, 80, 83, 0]
          ++ be32 (hi32 ((validateFloat st.gpsTime % 18446744073709551616).toNat : Int))
          ++ be32 (lo32 ((validateFloat st.gpsTime % 18446744073709551616).toNat : Int))
          ++ be32 (hi32 (pkt.txTimestamp : Int)) ++ be32 (lo32 (pkt.txTimestamp : Int))
          ++ be32 (hi32 ((validateFloat rxT % 18446744073709551616).toNat : Int))
          ++ be32 (lo32 ((validateFloat rxT % 18446744073709551616).toNat : Int))
          ++ be32 (hi32 (floatToFixed (st.gpsTime + now - st.perfTime + st.rootDelay) 32 + UTC_TO_NTP))
          ++ be32 (lo32 (floatToFixed (st.gpsTime + now - st.perfTime + st.rootDelay) 32 + UTC_TO_NTP)) := by
  cases hfb : fromBuffer data with
  | error e => rw [txRespond_none_of_parse _ _ _ _ _ _ _ hfb] at h; cases h
  | ok pkt =>
    by_cases hmode : pkt.mode = Mode.CLIENT ∨ pkt.mode = Mode.SYMMETRIC_ACTIVE
    · by_cases hC : (0 ≤ toInt8 envPoll ∧ toInt8 envPoll < 256)
          ∧ (0 ≤ toInt32 (floatToFixed st.rootDelay 16)
              ∧ toInt32 (floatToFixed st.rootDelay 16) < 4294967296)
          ∧ (0 ≤ toInt32 (floatToFixed serr 16)
              ∧ toInt32 (floatToFixed serr 16) < 4294967296)
      · rw [txRespond_some _ _ _ _ _ _ _ hfb hmode hC.1 hC.2.1 hC.2.2] at h
        exact ⟨pkt, toInt8 envPoll, toInt32 (floatToFixed st.rootDelay 16),
          toInt32 (floatToFixed serr 16), rfl, hmode, (Option.some.inj h).symm⟩

      · rw [txRespond_none_of_ranges _ _ _ _ _ _ _ hfb hmode hC] at h; cases h
    · rw [txRespond_none_of_mode _ _ _ _ _ _ _ hfb hmode] at h; cases h

/-- C8: `TimeRef.set` called with `utc = 0` is a no-op — all three fields
`gps_utc` (`gpsTime`), `anchor_mono` (`perfTime`) and `root_delay`
(`rootDelay`) are unchanged for every prior state; for `utc ≠ 0` all three
fields are stored together in the one atomic (mutex-guarded, modelled as a
single state transition) update `⟨utc, now₂, now₁ - rxTime + serialDelay⟩`. -/
theorem setTime_zero_noop_and_atomic_update (s : CurrentTime)
    (newTime rxTime now1 now2 serialDelay : ℚ) :
    (newTime = 0 → CurrentTime.setTime s newTime rxTime now1 now2 serialDelay = s)
    ∧ (newTime ≠ 0 → CurrentTime.setTime s newTime rxTime now1 now2 serialDelay
        = { gpsTime := newTime, perfTime := now2,
            rootDelay := now1 - rxTime + serialDelay }) := by
  unfold CurrentTime.setTime
  constructor
  · intro h; rw [if_neg (by simp [h])]
  · intro h; rw [if_pos h]

/-- Witness for C8 at a concrete state. -/
theorem setTime_zero_noop_and_atomic_update_witness :
    CurrentTime.setTime ⟨1, 2, 3⟩ 0 9 9 9 9 = ⟨1, 2, 3⟩
    ∧ CurrentTime.setTime ⟨1, 2, 3⟩ 7 1 2 3 4 = ⟨7, 3, 2 - 1 + 4⟩ :=
  ⟨(setTime_zero_noop_and_atomic_update ⟨1, 2, 3⟩ 0 9 9 9 9).1 rfl,
   (setTime_zero_noop_and_atomic_update ⟨1, 2, 3⟩ 7 1 2 3 4).2 (by norm_num)⟩

/-- C9 counterexample: on the uninitialised all-zero state, `getTime` at
monotonic instant 100 returns reference 0 and root delay 0 as claimed, but
the current time is 100 — the monotonic counter value — which is not
approximately equal to the root delay 0 (not even within a generous
1-second tolerance). -/
theorem uninitialised_sample_not_near_root_delay :
    (CurrentTime.getTime CurrentTime.initState 100).2.1 = 0
    ∧ (CurrentTime.getTime CurrentTime.initState 100).2.2 = 0
    ∧ (CurrentTime.getTime CurrentTime.initState 100).1 = 100
    ∧ ¬ |(CurrentTime.getTime CurrentTime.initState 100).1
          - (CurrentTime.getTime CurrentTime.initState 100).2.2| ≤ 1 := by
  norm_num [CurrentTime.getTime, CurrentTime.initState]

/-- C9 amended: before any GPS epoch has been received, `getTime` returns
reference 0 and root delay 0, but the current time equals the monotonic
counter value `now` (it is ≈ `root_delay` only when the counter itself is
near 0); replies are still emitted with Stratum byte 1. -/
theorem uninitialised_sample_returns_now_mono :
    (∀ now : ℚ, CurrentTime.getTime CurrentTime.initState now = (now, 0, 0))
    ∧ (∀ (data : List Nat) (rxT now : ℚ) (envPoll : Int) (serr : ℚ) (reply : List Nat),
        txRespond data rxT CurrentTime.initState now envPoll serr = some reply →
        reply.getD 1 0 = 1) := by
  constructor
  · intro now
    unfold CurrentTime.getTime CurrentTime.initState
    norm_num
  · intro data rxT now envPoll serr reply h
    obtain ⟨pkt, pv, rdv, rdisv, hfb, hmode, rfl⟩ :=
      txRespond_reply_cases _ _ _ _ _ _ _ h
    rfl

/-- Witness for C9's amended statement at concrete inputs. -/
theorem uninitialised_sample_returns_now_mono_witness :
    CurrentTime.getTime CurrentTime.initState 5 = (5, 0, 0)
    ∧ ((txRespond cReqVN3 0 CurrentTime.initState 0 0 0).getD []).getD 1 0 = 1 :=
  ⟨uninitialised_sample_returns_now_mono.1 5,
   uninitialised_sample_returns_now_mono.2 cReqVN3 0 0 0 0
     ((txRespond cReqVN3 0 CurrentTime.initState 0 0 0).getD [])
     (by with_unfolding_all decide)⟩

theorem toInt8_range (v : Int) : -128 ≤ toInt8 v ∧ toInt8 v < 128 := by
  unfold toInt8
  omega

theorem toInt32_id (v : Int) (h0 : -2147483648 ≤ v) (h1 : v < 2147483648) : toInt32 v = v := by
  unfold toInt32
  omega

theorem floatToFixed_bounds (x : ℚ) (h0 : 0 ≤ x) (h1 : x < 32768) :
    0 ≤ floatToFixed x 16 ∧ floatToFixed x 16 < 2147483648 := by
  unfold floatToFixed pyTrunc
  rw [if_pos h0]
  have hip0 : 0 ≤ ⌊x⌋ := Int.floor_nonneg.mpr h0
  have hip1 : ⌊x⌋ < 32768 := Int.floor_lt.mpr (by push_cast; linarith)
  have hfr0 : (0 : ℚ) ≤ |x - (⌊x⌋ : ℚ)| := abs_nonneg _
  have hfr1 : |x - (⌊x⌋ : ℚ)| < 1 := by
    rw [abs_of_nonneg (by linarith [Int.floor_le x])]
    linarith [Int.lt_floor_add_one x]
  have hfp0 : 0 ≤ ⌊|x - (⌊x⌋ : ℚ)| * 2 ^ 16⌋ := Int.floor_nonneg.mpr (by positivity)
  have hfp1 : ⌊|x - (⌊x⌋ : ℚ)| * 2 ^ 16⌋ < 65536 := Int.floor_lt.mpr (by push_cast; nlinarith)
  dsimp only
  constructor <;> nlinarith

/-- C10: a 47-byte datagram fails to parse (`struct.error` →
`NtpException`) and produces no reply; datagrams of length 48 and of
length 1024 are accepted, and exactly the first 48 bytes are parsed: the
parse result coincides with the parse of `take 48`. -/
theorem length_47_rejected_48_and_1024_accepted (b : List Nat) (rxT : ℚ) (st : CurrentTime)
    (now : ℚ) (envPoll : Int) (serr : ℚ) :
    (b.length = 47 → fromBuffer b = .error ("Invalid NTP fields")
        ∧ txRespond b rxT st now envPoll serr = none)
    ∧ (b.length = 48 ∨ b.length = 1024 →
        ∃ pkt, fromBuffer b = .ok pkt ∧ fromBuffer (b.take 48) = .ok pkt) := by
  constructor
  · intro h47
    have hfb : fromBuffer b = .error ("Invalid NTP fields") := by
      unfold fromBuffer
      rw [if_pos (by omega)]
    exact ⟨hfb, txRespond_none_of_parse _ _ _ _ _ _ _ hfb⟩
  · intro hlen
    have h48 : 48 ≤ b.length := by rcases hlen with h | h <;> omega
    have ht : (b.take 48).take 48 = b.take 48 := by
      rw [List.take_take]
      norm_num
    rw [fromBuffer_ok_of_length b h48,
      fromBuffer_ok_of_length (b.take 48) (by simp [List.length_take]; omega), ht]
    exact ⟨_, rfl, rfl⟩

/-- Witness for C10 at concrete datagrams of lengths 47 and 1024. -/
theorem length_47_rejected_48_and_1024_accepted_witness :
    (fromBuffer (List.replicate 47 0) = .error ("Invalid NTP fields")
      ∧ txRespond (List.replicate 47 0) 0 CurrentTime.initState 0 0 0 = none)
    ∧ (∃ pkt, fromBuffer (List.replicate 1024 0) = .ok pkt
        ∧ fromBuffer ((List.replicate 1024 0).take 48) = .ok pkt) :=
  ⟨(length_47_rejected_48_and_1024_accepted (List.replicate 47 0) 0
      CurrentTime.initState 0 0 0).1 (by rw [List.length_replicate]),
   (length_47_rejected_48_and_1024_accepted (List.replicate 1024 0) 0
      CurrentTime.initState 0 0 0).2 (Or.inr (by rw [List.length_replicate]))⟩

/-- C4 counterexample: the 48-byte request `cReqVN0` (first byte
`0b00_000_011`: LI 0, VN 0, Mode 3 = CLIENT) has version 0, which the
claim says is rejected with no reply — yet it parses successfully with
version field 0 and `txRespond` answers it. -/
theorem vn_zero_request_is_answered :
    Except.map (fun p => p.version) (fromBuffer cReqVN0) = .ok 0
    ∧ (txRespond cReqVN0 0 CurrentTime.initState 0 0 0).isSome = true := by
  constructor
  · with_unfolding_all decide
  · with_unfolding_all decide

/-- C4 amended: parsing performs no version validation — every buffer of at
least 48 bytes parses, whatever its VN bits — and a request whose Mode is
CLIENT or SYMMETRIC_ACTIVE is answered regardless of its version
(in particular VN 0 and VN 5 are answered, not rejected), provided the
configured poll byte is non-negative and the stored root delay and the
configured serial error are in 16.16 packing range; the `1 ≤ VN ≤ 4` check
of `NtpPacket.__init__` applies only to locally constructed packets, never
to `fromBuffer`. -/
theorem any_version_parsed_and_answered :
    (∀ b : List Nat, 48 ≤ b.length → ∃ pkt, fromBuffer b = .ok pkt)
    ∧ (∀ (b : List Nat) (rxT : ℚ) (st : CurrentTime) (now : ℚ) (envPoll : Int) (serr : ℚ)
        (pkt : NtpPacket),
        fromBuffer b = .ok pkt →
        (pkt.mode = Mode.CLIENT ∨ pkt.mode = Mode.SYMMETRIC_ACTIVE) →
        0 ≤ toInt8 envPoll →
        0 ≤ st.rootDelay → st.rootDelay < 32768 →
        0 ≤ serr → serr < 32768 →
        (txRespond b rxT st now envPoll serr).isSome = true)
    ∧ (∀ version : Int,
        (∃ p, NtpPacket.init version Mode.CLIENT ("GPS") = .ok p)
        ↔ (0 < version ∧ version ≤ 4)) := by
  refine ⟨?_, ?_, ?_⟩
  · intro b h
    rw [fromBuffer_ok_of_length b h]
    exact ⟨_, rfl⟩
  · intro b rxT st now envPoll serr pkt hfb hmode hp hrd0 hrd1 hse0 hse1
    have hrdb := floatToFixed_bounds st.rootDelay hrd0 hrd1
    have hseb := floatToFixed_bounds serr hse0 hse1
    rw [txRespond_some _ _ _ _ _ _ _ hfb hmode ⟨hp, by linarith [(toInt8_range envPoll).2]⟩
      (by rw [toInt32_id _ (by omega) (by omega)]; omega)
      (by rw [toInt32_id _ (by omega) (by omega)]; omega)]
    rfl
  · intro version
    unfold NtpPacket.init NTP_MAX_VERSION
    by_cases hv : version > 0 ∧ version ≤ 4
    · rw [if_pos hv]
      simp [hv]
    · rw [if_neg hv]
      simp [hv]

/-- Witness for C4's amended statement: the VN = 5 request parses and is
answered on the initial state with poll 0 and serial error 0, and the
constructor check accepts exactly versions 1..4 (instantiated at 3). -/
theorem any_version_parsed_and_answered_witness :
    (∃ pkt, fromBuffer cReqVN5 = .ok pkt)
    ∧ (txRespond cReqVN5 0 CurrentTime.initState 0 0 0).isSome = true
    ∧ ((∃ p, NtpPacket.init 3 Mode.CLIENT ("GPS") = .ok p) ↔ (0 < (3 : Int) ∧ (3 : Int) ≤ 4)) :=
  ⟨any_version_parsed_and_answered.1 cReqVN5 (by with_unfolding_all decide),
   any_version_parsed_and_answered.2.1 cReqVN5 0 CurrentTime.initState 0 0 0
     ⟨.NO_WARNING, 5, .CLIENT, 0, 0, 0, 0, 0, 0, 0, 0, 0, 0⟩
     (by with_unfolding_all decide) (Or.inl rfl)
     (by norm_num [toInt8])
     (by norm_num [CurrentTime.initState]) (by norm_num [CurrentTime.initState])
     (by norm_num) (by norm_num),
   any_version_parsed_and_answered.2.2 3⟩

/-- C5: for every well-formed 48-byte request (40-byte head plus transmit
timestamp bytes 40..47) with Mode CLIENT or SYMMETRIC_ACTIVE, the
OriginTimestamp field (bytes 24..31) of the emitted reply is byte-for-byte
the TransmitTimestamp bytes (40..47) of the request — echoed without
reinterpretation or epoch-offset adjustment. -/
theorem reply_origin_echoes_request_transmit (front : List Nat)
    (a b c d e f g h2 : Nat) (rxT : ℚ) (st : CurrentTime) (now : ℚ)
    (envPoll : Int) (serr : ℚ) (reply : List Nat)
    (hlen : front.length = 40)
    (hbytes : a < 256 ∧ b < 256 ∧ c < 256 ∧ d < 256
        ∧ e < 256 ∧ f < 256 ∧ g < 256 ∧ h2 < 256)
    (h : txRespond (front ++ [a, b, c, d, e, f, g, h2]) rxT st now envPoll serr
        = some reply) :
    (reply.drop 24).take 8 = ((front ++ [a, b, c, d, e, f, g, h2]).drop 40).take 8
    ∧ (reply.drop 24).take 8 = [a, b, c, d, e, f, g, h2] := by
  obtain ⟨pkt, pv, rdv, rdisv, hfb, hmode, rfl⟩ := txRespond_reply_cases _ _ _ _ _ _ _ h
  obtain ⟨ha, hb, hc, hd, he, hf, hg, hh⟩ := hbytes
  have horg := fromBuffer_tx_bytes front a b c d e f g h2 pkt hlen hfb
  have hsecond : ((([28, 1, pv.toNat, 240] ++ be32 rdv ++ be32 rdisv ++ [71, 80, 83, 0]
      ++ be32 (hi32 ((validateFloat st.gpsTime % 18446744073709551616).toNat : Int))
      ++ be32 (lo32 ((validateFloat st.gpsTime % 18446744073709551616).toNat : Int))
      ++ be32 (hi32 (pkt.txTimestamp : Int)) ++ be32 (lo32 (pkt.txTimestamp : Int))
      ++ be32 (hi32 ((validateFloat rxT % 18446744073709551616).toNat : Int))
      ++ be32 (lo32 ((validateFloat rxT % 18446744073709551616).toNat : Int))
      ++ be32 (hi32 (floatToFixed (st.gpsTime + now - st.perfTime + st.rootDelay) 32 + UTC_TO_NTP))
      ++ be32 (lo32 (floatToFixed (st.gpsTime + now - st.perfTime + st.rootDelay) 32 + UTC_TO_NTP))).drop 24).take 8)
      = [a, b, c, d, e, f, g, h2] := by
    rw [horg, hi32_of_pair _ _ (by omega) (by omega), lo32_of_pair _ _ (by omega) (by omega),
      be32_of_bytes a b c d ha hb hc hd, be32_of_bytes e f g h2 he hf hg hh]
    rfl
  refine ⟨?_, hsecond⟩
  rw [hsecond]
  rw [show (40 : Nat) = front.length from hlen.symm, List.drop_left]
  rfl

/-- Witness for C5: the spec scenario's request (VN 3, Mode CLIENT,
TransmitTimestamp `0xDEADBEEFCAFEBABE`) gets a reply whose bytes 24..31 are
`DE AD BE EF CA FE BA BE`. -/
theorem reply_origin_echoes_request_transmit_witness :
    ((((txRespond cReqVN3 0 CurrentTime.initState 0 0 0).getD []).drop 24).take 8
      = ((cReqVN3.drop 40).take 8))
    ∧ (((txRespond cReqVN3 0 CurrentTime.initState 0 0 0).getD []).drop 24).take 8
      = [222, 173, 190, 239, 202, 254, 186, 190] :=
  reply_origin_echoes_request_transmit (27 :: List.replicate 39 0)
    222 173 190 239 202 254 186 190 0 CurrentTime.initState 0 0 0
    ((txRespond cReqVN3 0 CurrentTime.initState 0 0 0).getD [])
    (by with_unfolding_all decide) (by decide) (by with_unfolding_all decide)

/-- C6: every reply `txRespond` emits — for any request contents and any
TimeRef state — carries first byte 28 = `0<<6 | 3<<3 | 4` (LI 0 NO_WARNING,
Version 3, Mode 4 SERVER), Stratum byte 1, and Reference ID bytes
`"GPS\x00"` = `[71, 80, 83, 0]`, i.e. the `np.uint32` value
`('G'<<24)|('P'<<16)|('S'<<8)|0`. -/
theorem reply_header_fields_fixed (data : List Nat) (rxT : ℚ) (st : CurrentTime)
    (now : ℚ) (envPoll : Int) (serr : ℚ) (reply : List Nat)
    (h : txRespond data rxT st now envPoll serr = some reply) :
    reply.take 2 = [28, 1]
    ∧ reply.getD 0 0 = 0 * 64 + 3 * 8 + 4
    ∧ (reply.drop 12).take 4 = [71, 80, 83, 0]
    ∧ stringToInt ("GPS") = 71 * 16777216 + 80 * 65536 + 83 * 256 + 0 := by
  obtain ⟨pkt, pv, rdv, rdisv, hfb, hmode, rfl⟩ := txRespond_reply_cases _ _ _ _ _ _ _ h
  exact ⟨rfl, rfl, rfl, rfl⟩

/-- Witness for C6 at the spec scenario's request and the initial state. -/
theorem reply_header_fields_fixed_witness :
    ((txRespond cReqVN3 0 CurrentTime.initState 0 0 0).getD []).take 2 = [28, 1]
    ∧ ((txRespond cReqVN3 0 CurrentTime.initState 0 0 0).getD []).getD 0 0 = 0 * 64 + 3 * 8 + 4
    ∧ (((txRespond cReqVN3 0 CurrentTime.initState 0 0 0).getD []).drop 12).take 4
        = [71, 80, 83, 0]
    ∧ stringToInt ("GPS") = 71 * 16777216 + 80 * 65536 + 83 * 256 + 0 :=
  reply_header_fields_fixed cReqVN3 0 CurrentTime.initState 0 0 0
    ((txRespond cReqVN3 0 CurrentTime.initState 0 0 0).getD [])
    (by with_unfolding_all decide)

/-- C2: for every NMEA sentence whose checksum verifies and whose fields are
well-formed (the accessed fields exist, their digit slices parse, the month
is 1..12 and the year in the representable range of its format),
`utcFromGps` computes seconds-since-1970 by the spec's literal formula
`hour*3600 + minute*60 + second + hundredth*0.01 + day*86400 +
Σ non-leap month lengths before the month + ys1970*365*86400 +
leap_days(ys1970, month)*86400` with
`leap_days(y, m) = floor((y+2)/4) - (1 if m < 3 else 0)`, where `ys1970`
is `yy + 30` for GPRMC's two-digit year and `yyyy - 1970` for GPZDA. -/
theorem utcFromGps_matches_spec_formula :
    (∀ (s : String) (df tf : List Char) (dd mo yy hh mi ss hu : Int),
      nmeaChecksum s = .ok true →
      pyGet (pySplit ',' s.data) 9 = .ok df →
      pyIntDec (String.mk (pySlice df 0 2)) = .ok dd →
      pyIntDec (String.mk (pySlice df 2 4)) = .ok mo →
      pyIntDec (String.mk (pySlice df 4 6)) = .ok yy →
      pyGet (pySplit ',' s.data) 1 = .ok tf →
      pyIntDec (String.mk (pySlice tf 0 2)) = .ok hh →
      pyIntDec (String.mk (pySlice tf 2 4)) = .ok mi →
      pyIntDec (String.mk (pySlice tf 4 6)) = .ok ss →
      pyIntDec (String.mk (pySlice tf 7 9)) = .ok hu →
      1 ≤ mo → mo ≤ 12 → 0 ≤ yy → yy ≤ 99 →
      utcFromGps s .GPRMC = .ok (specTimestamp hh mi ss hu dd mo (yy + 30)))
    ∧ (∀ (s : String) (df mf yf tf : List Char) (dd mo yy hh mi ss hu : Int),
      nmeaChecksum s = .ok true →
      pyGet (pySplit ',' s.data) 2 = .ok df →
      pyIntDec (String.mk df) = .ok dd →
      pyGet (pySplit ',' s.data) 3 = .ok mf →
      pyIntDec (String.mk mf) = .ok mo →
      pyGet (pySplit ',' s.data) 4 = .ok yf →
      pyIntDec (String.mk yf) = .ok yy →
      pyGet (pySplit ',' s.data) 1 = .ok tf →
      pyIntDec (String.mk (pySlice tf 0 2)) = .ok hh →
      pyIntDec (String.mk (pySlice tf 2 4)) = .ok mi →
      pyIntDec (String.mk (pySlice tf 4 6)) = .ok ss →
      pyIntDec (String.mk (pySlice tf 7 9)) = .ok hu →
      1 ≤ mo → mo ≤ 12 → 1970 ≤ yy → yy ≤ 9999 →
      utcFromGps s .GPZDA = .ok (specTimestamp hh mi ss hu dd mo (yy - 1970))) :=
  ⟨fun s df tf dd mo yy hh mi ss hu hck h1 h2 h3 h4 h5 h6 h7 h8 h9 hm1 hm2 hy1 hy2 =>
    utcFromGps_gprmc_eq s df tf dd mo yy hh mi ss hu hck h1 h2 h3 h4 h5 h6 h7 h8 h9
      hm1 hm2 hy1 hy2,
   fun s df mf yf tf dd mo yy hh mi ss hu hck h1 h2 h3 h4 h5 h6 h7 h8 h9 h10 h11
      hm1 hm2 hy1 hy2 =>
    utcFromGps_gpzda_eq s df mf yf tf dd mo yy hh mi ss hu hck h1 h2 h3 h4 h5 h6 h7 h8
      h9 h10 h11 hm1 hm2 hy1 hy2⟩

/-- Witness for C2: the formula evaluated on the concrete GPZDA scenario
sentence. -/
theorem utcFromGps_matches_spec_formula_witness :
    utcFromGps gpzdaSentence .GPZDA = .ok (specTimestamp 12 35 19 50 15 6 (2024 - 1970)) :=
  utcFromGps_matches_spec_formula.2 gpzdaSentence
    ("15".data) ("06".data) ("2024".data) ("123519.50".data) 15 6 2024 12 35 19 50
    (by with_unfolding_all decide) (by with_unfolding_all decide)
    (by with_unfolding_all decide) (by with_unfolding_all decide)
    (by with_unfolding_all decide) (by with_unfolding_all decide)
    (by with_unfolding_all decide) (by with_unfolding_all decide)
    (by with_unfolding_all decide) (by with_unfolding_all decide)
    (by with_unfolding_all decide) (by with_unfolding_all decide)
    (by norm_num) (by norm_num) (by norm_num) (by norm_num)

/-- C1: decoding the GPZDA scenario sentence (with its correct checksum
`68`) returns `1_718_541_319.5` = `3437082639/2` seconds — exactly one day
(86400 s) more than the claimed true UTC timestamp `1_718_454_919.5` of
2024-06-15T12:35:19.5Z, because the code adds `day * 86400` instead of
`(day - 1) * 86400` (its `- 1` leap adjustment compensates only in
January/February of non-leap years). -/
theorem gpzda_real_sentence_decodes_one_day_ahead :
    utcFromGps gpzdaSentence .GPZDA = .ok (3437082639 / 2)
    ∧ (3437082639 / 2 : ℚ) = 1718454919.5 + 86400
    ∧ (3437082639 / 2 : ℚ) ≠ 1718454919.5 := by
  refine ⟨?_, by norm_num, by norm_num⟩
  rw [utcFromGps_gpzda_eq gpzdaSentence
    ("15".data) ("06".data) ("2024".data) ("123519.50".data) 15 6 2024 12 35 19 50
    (by with_unfolding_all decide) (by with_unfolding_all decide)
    (by with_unfolding_all decide) (by with_unfolding_all decide)
    (by with_unfolding_all decide) (by with_unfolding_all decide)
    (by with_unfolding_all decide) (by with_unfolding_all decide)
    (by with_unfolding_all decide) (by with_unfolding_all decide)
    (by with_unfolding_all decide) (by with_unfolding_all decide)
    (by norm_num) (by norm_num) (by norm_num) (by norm_num)]
  norm_num [specTimestamp, specLeapDays, MONTH_DAYS, show Int.toNat 5 = 5 from rfl]

/-- C3: on the sentence `$GPRMC*GG` — exactly one `*`, but a checksum part
that does not parse as hex — `nmeaChecksum` raises `ValueError`
(`int("GG", 16)` is unguarded) instead of returning false; and on `$A*041`
it returns true although the part after `*` is not two hex digits
(`int("041", 16) = 65` equals the payload XOR), contradicting the claim's
"returns false in every other case". -/
theorem nmeaChecksum_raises_on_bad_hex :
    nmeaChecksum ("$GPRMC*GG") = .error ("ValueError")
    ∧ nmeaChecksum ("$A*041") = .ok true := by
  constructor <;> with_unfolding_all decide

/-- C7: the sentence `$GPRMC*4B` passes the checksum (XOR of `GPRMC` is
`0x4B`) but has no field 9, so `utcFromGps` raises `IndexError` at
`nmeaFields[9]` instead of returning 0. -/
theorem utcFromGps_raises_index_error_on_missing_fields :
    nmeaChecksum ("$GPRMC*4B") = .ok true
    ∧ utcFromGps ("$GPRMC*4B") .GPRMC = .error ("IndexError") := by
  constructor <;> with_unfolding_all decide
